import Mathlib

/-!
Verification of the RaDiceX Scrypto blueprint (src/games/RaDiceX/src/lib.rs).

The blueprint is shallowly embedded: the component state becomes a record,
each method becomes a function on that record, randomness (the external
`Runtime::generate_uuid` source) is passed in as explicit `Nat` arguments,
`Decimal` amounts are modelled as exact scaled integers, and every `assert!` that
aborts the transaction becomes an `Except.error` carrying the source's
message (the runtime commits atomically, so an aborted call changes no
state).  `i8` arithmetic is modelled on `Int` with an explicit wrap-around.
-/

namespace RaDiceX

/-- Wrap-around of signed 8-bit arithmetic: the representative of `x`
modulo 256 lying in `[-128, 127]`. -/
def wrap8 (x : Int) : Int := (x + 128) % 256 - 128

/-- The `Ticket` non-fungible data: `level : i8` and `last_throw : String`
(lib.rs lines 3-9). -/
structure Ticket where
  level : Int
  last_throw : String
deriving Repr, DecidableEq

/-- Scrypto's `Decimal`, a fixed-point number with 18 decimal places,
modelled by its raw integer numerator (the value times `10 ^ 18`).
Addition, subtraction and comparison of `Decimal`s are exactly the integer
operations on the numerators. -/
abbrev Decimal := Int

/-- The `Decimal` literal `dec!("1")`. -/
def decimal1 : Decimal := 10 ^ 18

/-- The `Decimal` literal `dec!("0.9")`. -/
def decimal09 : Decimal := 9 * 10 ^ 17

/-- The `Decimal` literal `dec!("5")`. -/
def decimal5 : Decimal := 5 * 10 ^ 18

/-- Resource address of the Radix token (`RADIX_TOKEN`), modelled as a tag. -/
def RADIX_TOKEN : Nat := 0

/-- Resource address of the RaDiceX ticket NFT, modelled as a tag. -/
def ticketResource : Nat := 1

/-- The `Radicex` component state (lib.rs lines 12-24): the radix vault
balance, the ticket resource address, the admin vault (number of admin
badges held internally), and the id counter `nrNFTsgenerated : u64`. -/
structure Radicex where
  radix_vault : Decimal
  my_non_fungible_ticket : Nat
  admin_vault : Decimal
  nrNFTsgenerated : Nat
deriving DecidableEq

/-- The non-fungible data registry of the ticket resource: integer local
id to ticket data.  Kept beside `Radicex` as the `tickets` component of the
full state. -/
structure LedgerState where
  comp : Radicex
  tickets : Nat → Option Ticket

/-- A fungible bucket: resource address and amount. -/
structure Bucket where
  resource : Nat
  amount : Decimal
deriving DecidableEq

/-- A proof of ticket ownership: resource address, amount of the proof,
and the non-fungible local id it references. -/
structure Proof where
  resource : Nat
  amount : Decimal
  nft_id : Nat
deriving DecidableEq

/-- A bucket of non-fungible tickets: resource address and the local ids
it holds. -/
structure NFTBucket where
  resource : Nat
  ids : List Nat
deriving DecidableEq

/-- `instantiate` (lib.rs lines 29-73): empty radix vault, one admin badge
kept in the admin vault (the second is returned to the deployer), counter
at zero, no tickets minted. -/
def instantiate : LedgerState :=
  { comp := { radix_vault := 0
              my_non_fungible_ticket := ticketResource
              admin_vault := 1
              nrNFTsgenerated := 0 }
    tickets := fun _ => none }

/-- `roll_dice` (lib.rs lines 79-83): `((random % 6) + 1) as i8`, the
modulo-based die.  `random` is the `u128` from `Runtime::generate_uuid`. -/
def roll_dice (random : Nat) : Int := ((random % 6 : Nat) : Int) + 1

/-- `roll_dice_old` (lib.rs lines 88-92): identical body to `roll_dice`,
kept externally callable for comparison. -/
def roll_dice_old (random : Nat) : Int := ((random % 6 : Nat) : Int) + 1

/-- Inner `while random > 0` loop of `roll_dice_alt` (lib.rs lines
101-109): look at the low 3 bits; if their value is below 6 return
value+1, otherwise shift right by 4 and retry while the remaining value
is nonzero.  Returns `none` when the draw is exhausted. -/
def scanDraw (random : Nat) : Option Int :=
  if random = 0 then none
  else if random % 8 < 6 then some (((random % 8 : Nat) : Int) + 1)
  else scanDraw (random / 16)
termination_by random
decreasing_by
  exact Nat.div_lt_self (Nat.pos_of_ne_zero (by assumption)) (by norm_num)

/-- Outer `loop` of `roll_dice_alt` (lib.rs lines 98-111): successive
`generate_uuid` draws are consumed until one of them yields a value;
the draws are passed as an explicit list, `none` meaning the list was
exhausted before a value was produced. -/
def roll_dice_alt : List Nat → Option Int
  | [] => none
  | r :: rest =>
    match scanDraw r with
    | some v => some v
    | none => roll_dice_alt rest

/-- Modelled from the spec (section 4.1 rejection-sampling strategy, the
algorithm claim C5 describes): partition the 128-bit draw into
non-overlapping 3-bit groups (43 groups cover 128 bits), scan them
low-to-high, return value+1 on the first group valued 0-5, discard groups
valued 6 or 7, and only after all groups are exhausted move to a fresh
draw. -/
def scanDrawSpec : Nat → Nat → Option Int
  | _, 0 => none
  | r, g + 1 =>
    if r % 8 < 6 then some (((r % 8 : Nat) : Int) + 1)
    else scanDrawSpec (r / 8) g

/-- Modelled from the spec: the rejection sampler described in section 4.1
and claim C5, over a list of 128-bit draws. -/
def roll_dice_alt_spec : List Nat → Option Int
  | [] => none
  | r :: rest =>
    match scanDrawSpec r 43 with
    | some v => some v
    | none => roll_dice_alt_spec rest

/-- Rust's `{:+}` formatting of a signed integer: an explicit `+` sign
for non-negative values. -/
def signedStr (i : Int) : String := if 0 ≤ i then "+" ++ toString i else toString i

/-- The round-resolution block of `play_round` (lib.rs lines 288-304)
given the already-rolled dice: the die difference, the tie-break, the
two clamping `if`s and the throw description.  All `i8` operations carry
the explicit wrap. -/
def resolve_round (level house_die player_die : Int) : Int × String :=
  let diff0 := wrap8 (player_die - house_die)
  let diff_of_dice := if diff0 = 0 then wrap8 (player_die - 4) else diff0
  let newlevel0 := wrap8 (level + diff_of_dice)
  let newlevel1 := if newlevel0 < 0 then 0 else newlevel0
  let newlevel := if newlevel1 > 25 then 25 else newlevel1
  (newlevel,
    "House " ++ toString house_die ++ ", Player " ++ toString player_die ++
      ", New Lvl " ++ toString newlevel ++ "(" ++ signedStr diff_of_dice ++ ")")

/-- `deposit` (lib.rs lines 116-129): requires a radix bucket holding
strictly more than `amount`, banks `amount`, returns the remainder. -/
def deposit (s : LedgerState) (amount : Decimal) (dep : Bucket) :
    Except String (LedgerState × Bucket) :=
  if dep.resource = RADIX_TOKEN then
    if dep.amount > amount then
      if 0 ≤ amount then
        .ok ({ s with comp := { s.comp with radix_vault := s.comp.radix_vault + amount } },
             { dep with amount := dep.amount - amount })
      else .error "invalid take amount"
    else .error "There are not enough tokens in your account"
  else .error "The Buy-in can only be done with Radix tokens"

/-- `withdrawal_all` (lib.rs lines 135-138): drains the radix vault and
returns everything in a bucket.  The method body never fails. -/
def withdrawal_all (s : LedgerState) : LedgerState × Bucket :=
  ({ s with comp := { s.comp with radix_vault := 0 } },
   { resource := RADIX_TOKEN, amount := s.comp.radix_vault })

/-- `admin_ticket` (lib.rs lines 187-204): bump the id counter with
`u64::wrapping_add`, mint a fresh level-10 ticket under that id and hand
it back.  Minting an id that already exists aborts the transaction, as
the resource manager refuses duplicate non-fungible ids. -/
def admin_ticket (s : LedgerState) : Except String (LedgerState × NFTBucket) :=
  let newCount := (s.comp.nrNFTsgenerated + 1) % 2 ^ 64
  match s.tickets newCount with
  | some _ => .error "non fungible id already exists"
  | none =>
    .ok ({ s with
            comp := { s.comp with nrNFTsgenerated := newCount }
            tickets := fun j =>
              if j = newCount then some ⟨10, "New Ticket, no play history"⟩
              else s.tickets j },
         { resource := s.comp.my_non_fungible_ticket, ids := [newCount] })

/-- `buy_ticket` (lib.rs lines 209-226): a radix bucket of at least 1
buys a freshly minted ticket (via `admin_ticket`); 1 radix is banked and
the change is returned. -/
def buy_ticket (s : LedgerState) (buyin : Bucket) :
    Except String (LedgerState × NFTBucket × Bucket) :=
  if buyin.resource = RADIX_TOKEN then
    if buyin.amount < decimal1 then .error "Not enough XRD supplied"
    else
      match admin_ticket s with
      | .error e => .error e
      | .ok (s1, nft) =>
        .ok ({ s1 with comp := { s1.comp with radix_vault := s1.comp.radix_vault + decimal1 } },
             nft, { buyin with amount := buyin.amount - decimal1 })
  else .error "The Buy-in can only be done with Radix tokens"

/-- `reinit_ticket` (lib.rs lines 144-180): a radix payment of at least
0.9 together with a single-ticket proof; requires level 0, banks 0.9,
resets the ticket to level 10 with the fixed description, returns the
change. -/
def reinit_ticket (s : LedgerState) (NFTTicket : Proof) (buyin : Bucket) :
    Except String (LedgerState × Bucket) :=
  if buyin.resource = RADIX_TOKEN then
    if buyin.amount < decimal09 then .error "Not enough XRD supplied"
    else if NFTTicket.amount = decimal1 then
      if NFTTicket.resource = s.comp.my_non_fungible_ticket then
        match s.tickets NFTTicket.nft_id with
        | none => .error "non fungible not found"
        | some ticket_data =>
          if ticket_data.level = 0 then
            .ok ({ s with
                    comp := { s.comp with radix_vault := s.comp.radix_vault + decimal09 }
                    tickets := fun j =>
                      if j = NFTTicket.nft_id then
                        some ⟨10, "Just reinitialized the Ticket"⟩
                      else s.tickets j },
                 { buyin with amount := buyin.amount - decimal09 })
          else .error "Level not 0, Ticket still playable"
      else .error "invalid proof"
    else .error "Only one (1) ticket per call is supported"
  else .error "The Buy-in can only be done with Radix tokens"

/-- `redeem_prize` (lib.rs lines 231-262): requires the vault to hold the
5-radix prize, a single-ticket proof and level 25; resets the level to 0
with the fixed description and pays 5 radix out of the vault. -/
def redeem_prize (s : LedgerState) (NFTTicket : Proof) :
    Except String (LedgerState × Bucket) :=
  if decimal5 ≤ s.comp.radix_vault then
    if NFTTicket.amount = decimal1 then
      if NFTTicket.resource = s.comp.my_non_fungible_ticket then
        match s.tickets NFTTicket.nft_id with
        | none => .error "non fungible not found"
        | some ticket_data =>
          if ticket_data.level = 25 then
            .ok ({ s with
                    comp := { s.comp with radix_vault := s.comp.radix_vault - decimal5 }
                    tickets := fun j =>
                      if j = NFTTicket.nft_id then
                        some ⟨0, "Just redeemed a level 25 Ticket"⟩
                      else s.tickets j },
                 { resource := RADIX_TOKEN, amount := decimal5 })
          else .error "Level not 25, Ticket not redeemable"
      else .error "invalid proof"
    else .error "Only one (1) ticket per call is supported"
  else .error "Not enough funds in the vault to pay prize money"

/-- `play_round` (lib.rs lines 270-312): a single-ticket proof, the
level must be neither 25 nor 0, two dice are rolled with `roll_dice`
(one `generate_uuid` draw each, passed as `r1` and `r2`), and the
resolved level and throw description are committed to the ticket. -/
def play_round (s : LedgerState) (NFTTicket : Proof) (r1 r2 : Nat) :
    Except String LedgerState :=
  if NFTTicket.amount = decimal1 then
    if NFTTicket.resource = s.comp.my_non_fungible_ticket then
      match s.tickets NFTTicket.nft_id with
      | none => .error "non fungible not found"
      | some ticket_data =>
        if ticket_data.level = 25 then .error "Ticket Level = 25, Ticket not playable"
        else if ticket_data.level = 0 then .error "Ticket Level = 0, Ticket not playable"
        else
          let house_die := roll_dice r1
          let player_die := roll_dice r2
          let res := resolve_round ticket_data.level house_die player_die
          .ok { s with
                 tickets := fun j =>
                   if j = NFTTicket.nft_id then some ⟨res.1, res.2⟩
                   else s.tickets j }
    else .error "invalid proof"
  else .error "Only one (1) ticket per call is supported"

/-- `burn_ticket` (lib.rs lines 316-328): a bucket of exactly one ticket
of the right resource is burned, removing its data from the registry. -/
def burn_ticket (s : LedgerState) (NFTTicket : NFTBucket) :
    Except String LedgerState :=
  if NFTTicket.resource = s.comp.my_non_fungible_ticket then
    if NFTTicket.ids = [] then .error "The supplied bucket is empty"
    else if NFTTicket.ids.length = 1 then
      .ok { s with
             tickets := fun j => if j ∈ NFTTicket.ids then none else s.tickets j }
    else .error "Only one (1) ticket per call is supported"
  else .error "The supplied bucket does not contain the correct Ticket address"

/-! ### Access rules

`instantiate` (lib.rs lines 54-58) registers per-method access rules:
`admin_ticket` and `withdrawal_all` require the admin badge, `roll_dice`
is denied to everyone, and every other method defaults to allow-all. -/

/-- An access rule as configured in `instantiate`. -/
inductive AccessRule where
  | requireAdminBadge
  | denyAll
  | allowAll
deriving DecidableEq

/-- The method-to-rule table built in `instantiate` (lib.rs lines 54-58). -/
def methodRule (methodName : String) : AccessRule :=
  if methodName = "admin_ticket" then .requireAdminBadge
  else if methodName = "withdrawal_all" then .requireAdminBadge
  else if methodName = "roll_dice" then .denyAll
  else .allowAll

/-- Whether a caller who does (or does not) present the admin badge
passes a given access rule. -/
def passesRule (hasAdminBadge : Bool) : AccessRule → Bool
  | .requireAdminBadge => hasAdminBadge
  | .denyAll => false
  | .allowAll => true

/-- The component call gate: the runtime checks the method's access rule
against the caller's presented badges before the method body runs; a
failed check aborts with an authorization error and the body never
executes. -/
def callGate (hasAdminBadge : Bool) (methodName : String)
    (body : Except String α) : Except String α :=
  if passesRule hasAdminBadge (methodRule methodName) then body
  else .error "Unauthorized"

/-- `admin_ticket` as invoked through the component gate. -/
def call_admin_ticket (hasAdminBadge : Bool) (s : LedgerState) :
    Except String (LedgerState × NFTBucket) :=
  callGate hasAdminBadge "admin_ticket" (admin_ticket s)

/-- `withdrawal_all` as invoked through the component gate. -/
def call_withdrawal_all (hasAdminBadge : Bool) (s : LedgerState) :
    Except String (LedgerState × Bucket) :=
  callGate hasAdminBadge "withdrawal_all" (.ok (withdrawal_all s))

/-- Whether an `Except` result is a success. -/
def isOkB : Except String α → Bool
  | .ok _ => true
  | .error _ => false

/-! ### Reachable states

One constructor per method of the blueprint: a state is reachable when a
finite sequence of successful calls (with arbitrary arguments and random
draws) produces it from `instantiate`.  Failed calls abort the
transaction and change nothing, so they never appear. -/

/-- States reachable from `instantiate` by successful method calls. -/
inductive Reachable : LedgerState → Prop where
  | init : Reachable instantiate
  | depositStep {s amt b s' ch} : Reachable s →
      deposit s amt b = .ok (s', ch) → Reachable s'
  | withdrawalStep {s} : Reachable s → Reachable (withdrawal_all s).1
  | adminTicketStep {s s' nft} : Reachable s →
      admin_ticket s = .ok (s', nft) → Reachable s'
  | buyTicketStep {s b s' nft ch} : Reachable s →
      buy_ticket s b = .ok (s', nft, ch) → Reachable s'
  | reinitStep {s p b s' ch} : Reachable s →
      reinit_ticket s p b = .ok (s', ch) → Reachable s'
  | redeemStep {s p s' payout} : Reachable s →
      redeem_prize s p = .ok (s', payout) → Reachable s'
  | playStep {s p r1 r2 s'} : Reachable s →
      play_round s p r1 r2 = .ok s' → Reachable s'
  | burnStep {s b s'} : Reachable s →
      burn_ticket s b = .ok s' → Reachable s'

/-! ### Spec-side formulations

Definitions written from the words of the claims, to be compared with the
embedded code. -/

/-- Clamp to the interval `[0, 25]`, as the spec words it. -/
def clampSpec (x : Int) : Int := max 0 (min 25 x)

/-- The delta of a round as the claims word it: `player - house`, except
`player - 4` when the two dice tie. -/
def deltaSpec (house player : Int) : Int :=
  if player = house then player - 4 else player - house

/-- The throw description format the claims word: the house value, the
player value, the resulting level and the signed delta. -/
def descSpec (house player newLvl delta : Int) : String :=
  "House " ++ toString house ++ ", Player " ++ toString player ++
    ", New Lvl " ++ toString newLvl ++ "(" ++ signedStr delta ++ ")"

/-! ### Concrete demonstration states

Closed states used to exercise the theorems: counterexamples and
witnesses evaluate the methods on them. -/

/-- A component state with vault balance `v` and a single ticket
(id 1) at level `lvl`. -/
def demoState (v : Decimal) (lvl : Int) : LedgerState :=
  { comp := { radix_vault := v
              my_non_fungible_ticket := ticketResource
              admin_vault := 1
              nrNFTsgenerated := 1 }
    tickets := fun j => if j = 1 then some ⟨lvl, "demo"⟩ else none }

/-- A valid single-ticket proof referencing ticket id 1. -/
def demoProof : Proof :=
  { resource := ticketResource, amount := decimal1, nft_id := 1 }

/-- The ledger after the very first `admin_ticket` mint on a fresh
instantiation. -/
def afterFirstMint : LedgerState :=
  match admin_ticket instantiate with
  | .ok (s, _) => s
  | .error _ => instantiate

/-- The ledger after one `play_round` from `demoState 0 10` with both
random draws 0 (both dice 1, a tie at 1). -/
def afterDemoPlay : LedgerState :=
  match play_round (demoState 0 10) demoProof 0 0 with
  | .ok s => s
  | .error _ => demoState 0 10

/-- The ledger after one `play_round` from `demoState 0 10` with draws
30 and 1 (modulo dice: house 1, player 2). -/
def afterBiasedPlay : LedgerState :=
  match play_round (demoState 0 10) demoProof 30 1 with
  | .ok s => s
  | .error _ => demoState 0 10

/-- The ledger after one `play_round` from `demoState 0 10` with both
draws 3 (both dice 4, the tie whose correction is zero). -/
def afterTie4Play : LedgerState :=
  match play_round (demoState 0 10) demoProof 3 3 with
  | .ok s => s
  | .error _ => demoState 0 10

/-- The ledger after one `play_round` from `demoState 0 10` with both
draws 2 (both dice 3, a tie with correction −1). -/
def afterTie3Play : LedgerState :=
  match play_round (demoState 0 10) demoProof 2 2 with
  | .ok s => s
  | .error _ => demoState 0 10

/-! ### Basic lemmas -/

lemma wrap8_bounds (x : Int) : -128 ≤ wrap8 x ∧ wrap8 x ≤ 127 := by
  unfold wrap8; omega

lemma wrap8_eq_self {x : Int} (h1 : -128 ≤ x) (h2 : x ≤ 127) : wrap8 x = x := by
  unfold wrap8; omega

lemma roll_dice_range (r : Nat) : 1 ≤ roll_dice r ∧ roll_dice r ≤ 6 := by
  unfold roll_dice
  have : r % 6 < 6 := Nat.mod_lt _ (by norm_num)
  omega

/-- Whenever the inner scan of `roll_dice_alt` produces a value, that
value is a die value in `[1, 6]`. -/
lemma scanDraw_range : ∀ r v, scanDraw r = some v → 1 ≤ v ∧ v ≤ 6 := by
  intro r
  induction r using Nat.strong_induction_on with
  | _ r ih =>
    intro v hv
    rw [scanDraw] at hv
    split at hv
    · cases hv
    · rename_i hne
      split at hv
      · rename_i h8
        cases hv
        have h8' : (((r % 8 : Nat) : Int)) < 6 := by exact_mod_cast h8
        have h0' : (0 : Int) ≤ ((r % 8 : Nat) : Int) := Int.natCast_nonneg _
        omega
      · exact ih (r / 16) (Nat.div_lt_self (Nat.pos_of_ne_zero hne) (by norm_num)) v hv

/-- The committed level of a round always lands in `[0, 25]`, whatever the
inputs: the two clamping `if`s bound whatever the wrapped addition gave. -/
lemma resolve_round_fst_range (level h p : Int) :
    0 ≤ (resolve_round level h p).1 ∧ (resolve_round level h p).1 ≤ 25 := by
  simp only [resolve_round]
  have hb := wrap8_bounds (level + if wrap8 (p - h) = 0 then wrap8 (p - 4) else wrap8 (p - h))
  split_ifs <;> omega

/-- With in-range dice and an in-range level, the wraps are the identity
and `resolve_round` computes exactly the spec-side clamp, delta and
description. -/
lemma resolve_round_eq_spec (level h p : Int)
    (hh1 : 1 ≤ h) (hh6 : h ≤ 6) (hp1 : 1 ≤ p) (hp6 : p ≤ 6)
    (hl0 : 0 ≤ level) (hl25 : level ≤ 25) :
    resolve_round level h p =
      (clampSpec (level + deltaSpec h p),
       descSpec h p (clampSpec (level + deltaSpec h p)) (deltaSpec h p)) := by
  simp only [resolve_round]
  rw [wrap8_eq_self (x := p - h) (by omega) (by omega),
      wrap8_eq_self (x := p - 4) (by omega) (by omega)]
  have hdelta : (if p - h = 0 then p - 4 else p - h) = deltaSpec h p := by
    unfold deltaSpec; split_ifs <;> omega
  rw [hdelta]
  have hdb : -128 ≤ level + deltaSpec h p ∧ level + deltaSpec h p ≤ 127 := by
    unfold deltaSpec; split_ifs <;> omega
  rw [wrap8_eq_self hdb.1 hdb.2]
  have hclamp :
      (if (if level + deltaSpec h p < 0 then 0 else level + deltaSpec h p) > 25 then 25
       else if level + deltaSpec h p < 0 then 0 else level + deltaSpec h p) =
        clampSpec (level + deltaSpec h p) := by
    unfold clampSpec; split_ifs <;> omega
  rw [hclamp]
  rfl

/-! ### Reduction and shape lemmas for the methods -/

/-- `play_round` under a valid single-ticket proof of an existing ticket:
only the two level guards remain, and success commits the resolved
round. -/
lemma play_round_reduce {s : LedgerState} {p : Proof} {t : Ticket} (r1 r2 : Nat)
    (hamt : p.amount = decimal1)
    (hres : p.resource = s.comp.my_non_fungible_ticket)
    (ht : s.tickets p.nft_id = some t) :
    play_round s p r1 r2 =
      if t.level = 25 then .error "Ticket Level = 25, Ticket not playable"
      else if t.level = 0 then .error "Ticket Level = 0, Ticket not playable"
      else .ok { s with
                  tickets := fun j =>
                    if j = p.nft_id then
                      some ⟨(resolve_round t.level (roll_dice r1) (roll_dice r2)).1,
                            (resolve_round t.level (roll_dice r1) (roll_dice r2)).2⟩
                    else s.tickets j } := by
  unfold play_round
  rw [if_pos hamt, if_pos hres, ht]

/-- `reinit_ticket` under a radix payment of at least 0.9 and a valid
single-ticket proof of an existing ticket: only the level-0 guard
remains. -/
lemma reinit_ticket_reduce {s : LedgerState} {p : Proof} {b : Bucket} {t : Ticket}
    (hbres : b.resource = RADIX_TOKEN)
    (hbamt : ¬ b.amount < decimal09)
    (hamt : p.amount = decimal1)
    (hres : p.resource = s.comp.my_non_fungible_ticket)
    (ht : s.tickets p.nft_id = some t) :
    reinit_ticket s p b =
      if t.level = 0 then
        .ok ({ s with
                comp := { s.comp with radix_vault := s.comp.radix_vault + decimal09 }
                tickets := fun j =>
                  if j = p.nft_id then some ⟨10, "Just reinitialized the Ticket"⟩
                  else s.tickets j },
             { b with amount := b.amount - decimal09 })
      else .error "Level not 0, Ticket still playable" := by
  unfold reinit_ticket
  rw [if_pos hbres, if_neg hbamt, if_pos hamt, if_pos hres, ht]

/-- `redeem_prize` under a valid single-ticket proof of an existing
ticket: only the vault-funds guard and the level-25 guard remain. -/
lemma redeem_prize_reduce {s : LedgerState} {p : Proof} {t : Ticket}
    (hamt : p.amount = decimal1)
    (hres : p.resource = s.comp.my_non_fungible_ticket)
    (ht : s.tickets p.nft_id = some t) :
    redeem_prize s p =
      if decimal5 ≤ s.comp.radix_vault then
        if t.level = 25 then
          .ok ({ s with
                  comp := { s.comp with radix_vault := s.comp.radix_vault - decimal5 }
                  tickets := fun j =>
                    if j = p.nft_id then some ⟨0, "Just redeemed a level 25 Ticket"⟩
                    else s.tickets j },
               { resource := RADIX_TOKEN, amount := decimal5 })
        else .error "Level not 25, Ticket not redeemable"
      else .error "Not enough funds in the vault to pay prize money" := by
  unfold redeem_prize
  by_cases hv : decimal5 ≤ s.comp.radix_vault
  · rw [if_pos hv, if_pos hv, if_pos hamt, if_pos hres, ht]
  · rw [if_neg hv, if_neg hv]

/-- Shape of a successful `play_round`: a valid proof of an existing
ticket whose level is neither 25 nor 0, and the result state rewrites
only that ticket with the resolved round. -/
lemma play_round_ok_shape {s : LedgerState} {p : Proof} {r1 r2 : Nat} {s' : LedgerState}
    (h : play_round s p r1 r2 = .ok s') :
    ∃ t, s.tickets p.nft_id = some t ∧ t.level ≠ 25 ∧ t.level ≠ 0 ∧
      s' = { s with
              tickets := fun j =>
                if j = p.nft_id then
                  some ⟨(resolve_round t.level (roll_dice r1) (roll_dice r2)).1,
                        (resolve_round t.level (roll_dice r1) (roll_dice r2)).2⟩
                else s.tickets j } := by
  unfold play_round at h
  split at h
  · split at h
    · split at h
      · cases h
      · rename_i ticket_data heq
        split at h
        · cases h
        · split at h
          · cases h
          · rename_i h25 h0
            cases h
            exact ⟨ticket_data, heq, h25, h0, rfl⟩
    · cases h
  · cases h

/-- A successful `deposit` leaves the ticket registry untouched. -/
lemma deposit_ok_tickets {s : LedgerState} {amt : Decimal} {b : Bucket}
    {s' : LedgerState} {ch : Bucket} (h : deposit s amt b = .ok (s', ch)) :
    s'.tickets = s.tickets := by
  unfold deposit at h
  split at h
  · split at h
    · split at h
      · cases h; rfl
      · cases h
    · cases h
  · cases h

/-- Shape of a successful `admin_ticket`: the bumped counter's id was
free and now carries a fresh level-10 ticket; nothing else changed. -/
lemma admin_ticket_ok_shape {s s' : LedgerState} {nft : NFTBucket}
    (h : admin_ticket s = .ok (s', nft)) :
    s.tickets ((s.comp.nrNFTsgenerated + 1) % 2 ^ 64) = none ∧
      s' = { s with
              comp := { s.comp with nrNFTsgenerated := (s.comp.nrNFTsgenerated + 1) % 2 ^ 64 }
              tickets := fun j =>
                if j = (s.comp.nrNFTsgenerated + 1) % 2 ^ 64 then
                  some ⟨10, "New Ticket, no play history"⟩
                else s.tickets j } := by
  simp only [admin_ticket] at h
  split at h
  · cases h
  · rename_i heq
    cases h
    exact ⟨heq, rfl⟩

/-- Shape of a successful `buy_ticket`: the mint of `admin_ticket`
followed by banking 1 radix. -/
lemma buy_ticket_ok_shape {s : LedgerState} {b : Bucket} {s' : LedgerState}
    {nft : NFTBucket} {ch : Bucket} (h : buy_ticket s b = .ok (s', nft, ch)) :
    ∃ s1, admin_ticket s = .ok (s1, nft) ∧
      s' = { s1 with comp := { s1.comp with radix_vault := s1.comp.radix_vault + decimal1 } } ∧
      ch = { b with amount := b.amount - decimal1 } := by
  unfold buy_ticket at h
  split at h
  · split at h
    · cases h
    · split at h
      · cases h
      · rename_i s1 nft1 heq
        cases h
        exact ⟨s1, heq, rfl, rfl⟩
  · cases h

/-- Shape of a successful `reinit_ticket`: the referenced ticket was at
level 0 and is reset to level 10; 0.9 radix is banked. -/
lemma reinit_ticket_ok_shape {s : LedgerState} {p : Proof} {b : Bucket}
    {s' : LedgerState} {ch : Bucket} (h : reinit_ticket s p b = .ok (s', ch)) :
    ∃ t, s.tickets p.nft_id = some t ∧ t.level = 0 ∧
      s' = { s with
              comp := { s.comp with radix_vault := s.comp.radix_vault + decimal09 }
              tickets := fun j =>
                if j = p.nft_id then some ⟨10, "Just reinitialized the Ticket"⟩
                else s.tickets j } := by
  unfold reinit_ticket at h
  split at h
  · split at h
    · cases h
    · split at h
      · split at h
        · split at h
          · cases h
          · rename_i ticket_data heq
            split at h
            · rename_i hl0
              cases h
              exact ⟨ticket_data, heq, hl0, rfl⟩
            · cases h
        · cases h
      · cases h
  · cases h

/-- Shape of a successful `redeem_prize`: the vault held the prize, the
referenced ticket was at level 25 and is reset to level 0; 5 radix is
paid out. -/
lemma redeem_prize_ok_shape {s : LedgerState} {p : Proof}
    {s' : LedgerState} {payout : Bucket} (h : redeem_prize s p = .ok (s', payout)) :
    ∃ t, s.tickets p.nft_id = some t ∧ t.level = 25 ∧ decimal5 ≤ s.comp.radix_vault ∧
      s' = { s with
              comp := { s.comp with radix_vault := s.comp.radix_vault - decimal5 }
              tickets := fun j =>
                if j = p.nft_id then some ⟨0, "Just redeemed a level 25 Ticket"⟩
                else s.tickets j } ∧
      payout = { resource := RADIX_TOKEN, amount := decimal5 } := by
  unfold redeem_prize at h
  split at h
  · rename_i hv
    split at h
    · split at h
      · split at h
        · cases h
        · rename_i ticket_data heq
          split at h
          · rename_i hl25
            cases h
            exact ⟨ticket_data, heq, hl25, hv, rfl, rfl⟩
          · cases h
      · cases h
    · cases h
  · cases h

/-- The level-range property of a single ticket. -/
abbrev LevelOk (t : Ticket) : Prop := 0 ≤ t.level ∧ t.level ≤ 25

/-- Updating one id of a level-respecting registry with a
level-respecting ticket keeps every stored ticket level-respecting. -/
lemma levelOk_update {f : Nat → Option Ticket} {newId : Nat} {t0 : Ticket}
    (hf : ∀ id t, f id = some t → LevelOk t) (h0 : LevelOk t0) :
    ∀ id t, (if id = newId then some t0 else f id) = some t → LevelOk t := by
  intro id t ht
  split at ht
  · cases ht; exact h0
  · exact hf id t ht

/-- A successful `burn_ticket` only removes tickets, never changes or
adds one. -/
lemma burn_ticket_ok_tickets {s : LedgerState} {b : NFTBucket} {s' : LedgerState}
    (h : burn_ticket s b = .ok s') :
    ∀ j, s'.tickets j = s.tickets j ∨ s'.tickets j = none := by
  unfold burn_ticket at h
  split at h
  · split at h
    · cases h
    · split at h
      · cases h
        intro j
        by_cases hj : j ∈ b.ids <;> simp [hj]
      · cases h
  · cases h

/-! ### Claim C2 -/

/-- C2: after every operation (mint via admin_ticket or buy_ticket,
play_round, reinit_ticket, redeem_prize — and also deposit,
withdrawal_all and burn_ticket), every ticket's level satisfies
0 ≤ level ≤ 25; no reachable sequence of operations produces a ticket
whose level is negative or above 25. -/
theorem C2_level_invariant {s : LedgerState} (hs : Reachable s) :
    ∀ id t, s.tickets id = some t → 0 ≤ t.level ∧ t.level ≤ 25 := by
  induction hs with
  | init =>
    intro id t ht
    simp [instantiate] at ht
  | depositStep hs hstep ih =>
    intro id t ht
    rw [deposit_ok_tickets hstep] at ht
    exact ih id t ht
  | withdrawalStep hs ih =>
    exact ih
  | adminTicketStep hs hstep ih =>
    obtain ⟨-, rfl⟩ := admin_ticket_ok_shape hstep
    exact levelOk_update ih (by constructor <;> norm_num)
  | buyTicketStep hs hstep ih =>
    obtain ⟨s1, hmint, rfl, -⟩ := buy_ticket_ok_shape hstep
    obtain ⟨-, rfl⟩ := admin_ticket_ok_shape hmint
    exact levelOk_update ih (by constructor <;> norm_num)
  | reinitStep hs hstep ih =>
    obtain ⟨t0, -, -, rfl⟩ := reinit_ticket_ok_shape hstep
    exact levelOk_update ih (by constructor <;> norm_num)
  | redeemStep hs hstep ih =>
    obtain ⟨t0, -, -, -, rfl, -⟩ := redeem_prize_ok_shape hstep
    exact levelOk_update ih (by constructor <;> norm_num)
  | playStep hs hstep ih =>
    obtain ⟨t0, -, -, -, rfl⟩ := play_round_ok_shape hstep
    exact levelOk_update ih (resolve_round_fst_range _ _ _)
  | burnStep hs hstep ih =>
    intro id t ht
    rcases burn_ticket_ok_tickets hstep id with hsame | hnone
    · rw [hsame] at ht
      exact ih id t ht
    · rw [hnone] at ht
      cases ht

/-! ### Evaluation of the demonstration states -/

lemma afterFirstMint_step :
    admin_ticket instantiate =
      .ok (afterFirstMint, { resource := ticketResource, ids := [1 % 2 ^ 64] }) := rfl

lemma afterDemoPlay_step :
    play_round (demoState 0 10) demoProof 0 0 = .ok afterDemoPlay := rfl

lemma afterBiasedPlay_step :
    play_round (demoState 0 10) demoProof 30 1 = .ok afterBiasedPlay := rfl

lemma afterTie4Play_step :
    play_round (demoState 0 10) demoProof 3 3 = .ok afterTie4Play := rfl

lemma afterTie3Play_step :
    play_round (demoState 0 10) demoProof 2 2 = .ok afterTie3Play := rfl

/-- Witness for C2 at a concrete reachable state: the ticket minted by
the first `admin_ticket` call sits at level 10, inside the bounds. -/
theorem C2_witness :
    0 ≤ (Ticket.mk 10 "New Ticket, no play history").level ∧
      (Ticket.mk 10 "New Ticket, no play history").level ≤ 25 :=
  C2_level_invariant (Reachable.adminTicketStep Reachable.init afterFirstMint_step)
    1 (Ticket.mk 10 "New Ticket, no play history") rfl

/-! ### Claim C6 -/

/-- C6: with a valid proof of exactly one ticket of the registry's
resource class referencing an existing ticket, play_round is rejected
(and, the transaction being atomic, changes no state) iff the ticket's
level is 0 or 25 beforehand; for every level in 1..24 the call
succeeds. -/
theorem C6_play_round_rejected_iff {s : LedgerState} {p : Proof} {t : Ticket}
    (r1 r2 : Nat)
    (hamt : p.amount = decimal1)
    (hres : p.resource = s.comp.my_non_fungible_ticket)
    (ht : s.tickets p.nft_id = some t) :
    (isOkB (play_round s p r1 r2) = false ↔ (t.level = 0 ∨ t.level = 25)) ∧
      (1 ≤ t.level → t.level ≤ 24 → isOkB (play_round s p r1 r2) = true) := by
  rw [play_round_reduce r1 r2 hamt hres ht]
  constructor
  · by_cases h25 : t.level = 25
    · simp [h25, isOkB]
    · by_cases h0 : t.level = 0 <;> simp [h25, h0, isOkB]
  · intro h1 h24
    have h25 : ¬ t.level = 25 := by omega
    have h0 : ¬ t.level = 0 := by omega
    simp [h25, h0, isOkB]

/-- Witness for C6 at the concrete level-10 state. -/
theorem C6_witness :
    (isOkB (play_round (demoState 0 10) demoProof 0 0) = false ↔
        ((Ticket.mk 10 "demo").level = 0 ∨ (Ticket.mk 10 "demo").level = 25)) ∧
      (1 ≤ (Ticket.mk 10 "demo").level → (Ticket.mk 10 "demo").level ≤ 24 →
        isOkB (play_round (demoState 0 10) demoProof 0 0) = true) :=
  C6_play_round_rejected_iff 0 0 rfl rfl rfl

/-! ### Claim C3 -/

/-- C3 as stated is false on the code: at a concrete state whose vault
is empty, a valid single-ticket proof of a level-25 ticket is rejected
(the vault-funds check precedes the level check), although the claim
says the call succeeds iff the level equals 25. -/
theorem C3_counterexample :
    (demoState 0 25).tickets demoProof.nft_id = some ⟨25, "demo"⟩ ∧
      isOkB (redeem_prize (demoState 0 25) demoProof) = false :=
  ⟨rfl, rfl⟩

/-- C3 amended: with a valid proof of exactly one existing ticket,
redeem_prize succeeds iff the ticket's level equals 25 AND the vault
holds at least the 5-radix prize; on success the ticket's level becomes
0 and the vault balance decreases by exactly 5 (failures abort the
atomic transaction, so no state changes). -/
theorem C3_redeem_prize_amended {s : LedgerState} {p : Proof} {t : Ticket}
    (hamt : p.amount = decimal1)
    (hres : p.resource = s.comp.my_non_fungible_ticket)
    (ht : s.tickets p.nft_id = some t) :
    (isOkB (redeem_prize s p) = true ↔
        (t.level = 25 ∧ decimal5 ≤ s.comp.radix_vault)) ∧
      (∀ s' payout, redeem_prize s p = .ok (s', payout) →
        s'.tickets p.nft_id = some ⟨0, "Just redeemed a level 25 Ticket"⟩ ∧
        s'.comp.radix_vault = s.comp.radix_vault - decimal5 ∧
        payout.amount = decimal5) := by
  constructor
  · rw [redeem_prize_reduce hamt hres ht]
    by_cases hv : decimal5 ≤ s.comp.radix_vault
    · by_cases h25 : t.level = 25 <;> simp [hv, h25, isOkB]
    · simp [hv, isOkB]
  · intro s' payout h
    obtain ⟨t0, ht0, -, -, rfl, rfl⟩ := redeem_prize_ok_shape h
    exact ⟨by simp, rfl, rfl⟩

/-- Witness for the amended C3 at a concrete state holding exactly the
prize and a level-25 ticket. -/
theorem C3_witness :
    isOkB (redeem_prize (demoState decimal5 25) demoProof) = true ↔
      ((Ticket.mk 25 "demo").level = 25 ∧
        decimal5 ≤ (demoState decimal5 25).comp.radix_vault) :=
  (C3_redeem_prize_amended rfl rfl rfl).1

/-! ### Claim C7 -/

/-- C7: with a valid single-ticket proof of an existing ticket and a
radix payment of at least 0.9, reinit_ticket succeeds iff the ticket's
level equals 0; on success the level becomes 10 with the fixed
reinitialized description, the vault balance increases by exactly 0.9,
and the excess payment is returned unchanged (same resource, original
amount minus 0.9). -/
theorem C7_reinit_ticket {s : LedgerState} {p : Proof} {b : Bucket} {t : Ticket}
    (hbres : b.resource = RADIX_TOKEN)
    (hbamt : ¬ b.amount < decimal09)
    (hamt : p.amount = decimal1)
    (hres : p.resource = s.comp.my_non_fungible_ticket)
    (ht : s.tickets p.nft_id = some t) :
    (isOkB (reinit_ticket s p b) = true ↔ t.level = 0) ∧
      (∀ s' ch, reinit_ticket s p b = .ok (s', ch) →
        s'.tickets p.nft_id = some ⟨10, "Just reinitialized the Ticket"⟩ ∧
        s'.comp.radix_vault = s.comp.radix_vault + decimal09 ∧
        ch.resource = b.resource ∧ ch.amount = b.amount - decimal09) := by
  constructor
  · rw [reinit_ticket_reduce hbres hbamt hamt hres ht]
    by_cases h0 : t.level = 0 <;> simp [h0, isOkB]
  · intro s' ch h
    rw [reinit_ticket_reduce hbres hbamt hamt hres ht] at h
    split at h
    · cases h
      exact ⟨by simp, rfl, rfl, rfl⟩
    · cases h

/-- Witness for C7 at a concrete level-0 state with a 1-radix payment. -/
theorem C7_witness :
    isOkB (reinit_ticket (demoState 0 0) demoProof
        { resource := RADIX_TOKEN, amount := decimal1 }) = true ↔
      (Ticket.mk 0 "demo").level = 0 :=
  (C7_reinit_ticket rfl (by decide) rfl rfl rfl).1

/-! ### Claim C4 -/

/-- C4: given the two drawn die values (house from draw r1, player from
draw r2), a successful play_round commits
new_level = clamp(current_level + delta, 0, 25) with
delta = player − house, except delta = player − 4 when the dice tie,
and the committed description embeds the house value, the player value,
the resulting level and the signed delta in the claimed format. -/
theorem C4_play_round_commit {s : LedgerState} {p : Proof} {t : Ticket}
    {r1 r2 : Nat} {s' : LedgerState}
    (_hamt : p.amount = decimal1)
    (_hres : p.resource = s.comp.my_non_fungible_ticket)
    (ht : s.tickets p.nft_id = some t)
    (hl0 : 0 ≤ t.level) (hl25 : t.level ≤ 25)
    (hok : play_round s p r1 r2 = .ok s') :
    s'.tickets p.nft_id =
      some ⟨clampSpec (t.level + deltaSpec (roll_dice r1) (roll_dice r2)),
            descSpec (roll_dice r1) (roll_dice r2)
              (clampSpec (t.level + deltaSpec (roll_dice r1) (roll_dice r2)))
              (deltaSpec (roll_dice r1) (roll_dice r2))⟩ := by
  obtain ⟨t0, ht0, -, -, rfl⟩ := play_round_ok_shape hok
  have ht0t : t0 = t := by
    rw [ht] at ht0
    exact (Option.some.inj ht0).symm
  subst ht0t
  have hr1 := roll_dice_range r1
  have hr2 := roll_dice_range r2
  rw [resolve_round_eq_spec t0.level (roll_dice r1) (roll_dice r2)
        hr1.1 hr1.2 hr2.1 hr2.2 hl0 hl25]
  simp

/-- Witness for C4: one concrete round (draws 0 and 0, a tie at die
value 1) from level 10. -/
theorem C4_witness :
    afterDemoPlay.tickets demoProof.nft_id =
      some ⟨clampSpec ((Ticket.mk 10 "demo").level + deltaSpec (roll_dice 0) (roll_dice 0)),
            descSpec (roll_dice 0) (roll_dice 0)
              (clampSpec ((Ticket.mk 10 "demo").level + deltaSpec (roll_dice 0) (roll_dice 0)))
              (deltaSpec (roll_dice 0) (roll_dice 0))⟩ :=
  C4_play_round_commit rfl rfl rfl (by decide) (by decide) afterDemoPlay_step

/-! ### Claim C1 -/

/-- C1 as stated is false on the code: play_round is wired to the
biased modulo die roll_dice, not to the rejection-sampling strategy.
On draws 30 and 1 from level 10 it commits level 11, consuming house
die roll_dice 30 = (30 mod 6) + 1 = 1; the rejection-sampling scan of
draw 30 yields 2 instead, so the die consumed is not the one the
unbiased strategy produces. -/
theorem C1_counterexample :
    play_round (demoState 0 10) demoProof 30 1 = .ok afterBiasedPlay ∧
      (afterBiasedPlay.tickets 1).map Ticket.level = some 11 ∧
      roll_dice 30 = 1 ∧
      scanDraw 30 = some 2 ∧
      some (roll_dice 30) ≠ scanDraw 30 := by
  have hscan : scanDraw 30 = some 2 := by
    rw [scanDraw]
    norm_num
    rw [scanDraw]
    norm_num
  refine ⟨afterBiasedPlay_step, rfl, rfl, hscan, ?_⟩
  rw [hscan]
  decide

/-- C1 amended: the two die values play_round consumes are produced by
the biased modulo strategy roll_dice — mod 6 plus one of each draw —
and the committed ticket is exactly the round resolved at those two
modulo dice. -/
theorem C1_amended_biased_dice {s : LedgerState} {p : Proof} {r1 r2 : Nat}
    {s' : LedgerState} (hok : play_round s p r1 r2 = .ok s') :
    ∃ t, s.tickets p.nft_id = some t ∧
      s'.tickets p.nft_id =
        some ⟨(resolve_round t.level (((r1 % 6 : Nat) : Int) + 1) (((r2 % 6 : Nat) : Int) + 1)).1,
              (resolve_round t.level (((r1 % 6 : Nat) : Int) + 1) (((r2 % 6 : Nat) : Int) + 1)).2⟩ := by
  obtain ⟨t, ht, -, -, rfl⟩ := play_round_ok_shape hok
  exact ⟨t, ht, by simp [roll_dice]⟩

/-- Witness for the amended C1 at the concrete draws 30 and 1. -/
theorem C1_witness :
    ∃ t, (demoState 0 10).tickets demoProof.nft_id = some t ∧
      afterBiasedPlay.tickets demoProof.nft_id =
        some ⟨(resolve_round t.level (((30 % 6 : Nat) : Int) + 1) (((1 % 6 : Nat) : Int) + 1)).1,
              (resolve_round t.level (((30 % 6 : Nat) : Int) + 1) (((1 % 6 : Nat) : Int) + 1)).2⟩ :=
  C1_amended_biased_dice afterBiasedPlay_step

/-! ### Claim C8 -/

/-- C8 as stated is false on the code: with both dice tied at 4 (draws
3 and 3), a round from level 10 commits level 10 — the tie-break delta
player − 4 is zero at a tied 4, so this tie leaves the level
unchanged. -/
theorem C8_counterexample :
    play_round (demoState 0 10) demoProof 3 3 = .ok afterTie4Play ∧
      roll_dice 3 = 4 ∧
      ((demoState 0 10).tickets 1).map Ticket.level = some 10 ∧
      (afterTie4Play.tickets 1).map Ticket.level = some 10 :=
  ⟨afterTie4Play_step, rfl, rfl, rfl⟩

/-- C8 amended: on a tie the delta is player − 4, so for every tied die
value other than 4 and every playable starting level the committed
level differs from the starting level; a tie at 4 leaves the level
unchanged. -/
theorem C8_amended_tie_break {s : LedgerState} {p : Proof} {t : Ticket}
    {r1 r2 : Nat} {s' : LedgerState}
    (ht : s.tickets p.nft_id = some t)
    (hl1 : 1 ≤ t.level) (hl24 : t.level ≤ 24)
    (htie : roll_dice r1 = roll_dice r2)
    (hne4 : roll_dice r2 ≠ 4)
    (hok : play_round s p r1 r2 = .ok s') :
    (s'.tickets p.nft_id).map Ticket.level ≠ some t.level := by
  obtain ⟨t0, ht0, -, -, rfl⟩ := play_round_ok_shape hok
  have ht0t : t0 = t := by
    rw [ht] at ht0
    exact (Option.some.inj ht0).symm
  subst ht0t
  have hr2 := roll_dice_range r2
  rw [htie]
  have hne : (resolve_round t0.level (roll_dice r2) (roll_dice r2)).1 ≠ t0.level := by
    simp only [resolve_round, sub_self]
    rw [show wrap8 0 = 0 by unfold wrap8; norm_num]
    simp only [eq_self_iff_true, if_true]
    rw [wrap8_eq_self (x := roll_dice r2 - 4) (by omega) (by omega),
        wrap8_eq_self (x := t0.level + (roll_dice r2 - 4)) (by omega) (by omega)]
    split_ifs <;> omega
  simpa using hne

/-- Witness for the amended C8: a tie at die value 3 (draws 2 and 2)
from level 10 commits a different level. -/
theorem C8_witness :
    (afterTie3Play.tickets demoProof.nft_id).map Ticket.level ≠
      some (Ticket.mk 10 "demo").level :=
  C8_amended_tie_break rfl (by decide) (by decide) rfl (by decide) afterTie3Play_step

/-! ### Claim C5 -/

/-- C5 as stated is false on the code: on the single draw 30 the code
returns 2 — after discarding the low group (value 6) it shifts by FOUR
bits and reads 1 from bits 4-6 — while the claimed low-to-high scan of
non-overlapping (adjacent) 3-bit groups reads group 1 = 3 from bits 3-5
and returns 4. -/
theorem C5_counterexample :
    roll_dice_alt [30] = some 2 ∧ roll_dice_alt_spec [30] = some 4 ∧
      roll_dice_alt [30] ≠ roll_dice_alt_spec [30] := by
  have hscan : scanDraw 30 = some 2 := by
    rw [scanDraw]
    norm_num
    rw [scanDraw]
    norm_num
  have h1 : roll_dice_alt [30] = some 2 := by
    simp [roll_dice_alt, hscan]
  have h2 : roll_dice_alt_spec [30] = some 4 := by decide
  refine ⟨h1, h2, ?_⟩
  rw [h1, h2]
  decide

/-- C5 amended: roll_dice_alt reads the low 3 bits of the current draw,
returns value+1 immediately when they are below 6, otherwise shifts the
draw right by four bits (skipping one bit per rejected group) and
repeats while the remaining value is nonzero, moving to the next fresh
draw once it reaches zero; every value it returns is in [1, 6]. -/
theorem C5_amended_alt_die :
    (∀ r : Nat, scanDraw r =
        if r = 0 then none
        else if r % 8 < 6 then some (((r % 8 : Nat) : Int) + 1)
        else scanDraw (r / 16)) ∧
      (∀ (draws : List Nat) (v : Int), roll_dice_alt draws = some v → 1 ≤ v ∧ v ≤ 6) := by
  constructor
  · intro r
    rw [scanDraw]
  · intro draws
    induction draws with
    | nil =>
      intro v hv
      cases hv
    | cons r rest ih =>
      intro v hv
      simp only [roll_dice_alt] at hv
      cases hsr : scanDraw r with
      | none =>
        rw [hsr] at hv
        exact ih v hv
      | some w =>
        rw [hsr] at hv
        cases hv
        exact scanDraw_range r _ hsr

/-- Witness for the amended C5: the draw 1 yields the die value 2,
inside [1, 6]. -/
theorem C5_witness :
    roll_dice_alt [1] = some 2 ∧ (1 ≤ (2 : Int) ∧ (2 : Int) ≤ 6) := by
  have h : roll_dice_alt [1] = some 2 := by
    have hs : scanDraw 1 = some 2 := by
      rw [scanDraw]
      norm_num
    simp [roll_dice_alt, hs]
  exact ⟨h, C5_amended_alt_die.2 [1] 2 h⟩

/-! ### Claim C9 -/

/-- C9: under the access rules registered at instantiation, admin_ticket
(direct minting) and withdrawal_all (draining the vault) invoked without
the admin badge fail with an authorization error before their bodies can
run, so no state changes; invoked with the badge they succeed (minting
needs the bumped counter's id to be free, as it is on any state that has
not wrapped the 64-bit counter onto a live id). -/
theorem C9_admin_gate (s : LedgerState)
    (hfree : s.tickets ((s.comp.nrNFTsgenerated + 1) % 2 ^ 64) = none) :
    call_admin_ticket false s = .error "Unauthorized" ∧
      call_withdrawal_all false s = .error "Unauthorized" ∧
      isOkB (call_admin_ticket true s) = true ∧
      isOkB (call_withdrawal_all true s) = true := by
  refine ⟨rfl, rfl, ?_, rfl⟩
  have hfree' : s.tickets ((s.comp.nrNFTsgenerated + 1) % 18446744073709551616) = none := hfree
  simp [call_admin_ticket, callGate, methodRule, passesRule, admin_ticket, hfree', isOkB]

/-- Witness for C9 at the freshly instantiated state. -/
theorem C9_witness :
    call_admin_ticket false instantiate = .error "Unauthorized" ∧
      call_withdrawal_all false instantiate = .error "Unauthorized" ∧
      isOkB (call_admin_ticket true instantiate) = true ∧
      isOkB (call_withdrawal_all true instantiate) = true :=
  C9_admin_gate instantiate rfl

/-! ### Claim C10 -/

/-- C10: a successful play_round leaves the whole component record —
vault balance, admin vault, ticket resource and id counter — unchanged
(so no tokens are minted or burned and the vault is untouched), changes
no ticket other than the one the proof references, preserves the
registry's domain, and rewrites the referenced ticket in place. -/
theorem C10_play_round_frame {s : LedgerState} {p : Proof} {r1 r2 : Nat}
    {s' : LedgerState} (hok : play_round s p r1 r2 = .ok s') :
    s'.comp = s.comp ∧
      (∀ j, j ≠ p.nft_id → s'.tickets j = s.tickets j) ∧
      (∀ j, (s'.tickets j).isSome = (s.tickets j).isSome) ∧
      (∃ t t', s.tickets p.nft_id = some t ∧ s'.tickets p.nft_id = some t') := by
  obtain ⟨t, ht, -, -, rfl⟩ := play_round_ok_shape hok
  refine ⟨rfl, ?_, ?_, t,
    ⟨(resolve_round t.level (roll_dice r1) (roll_dice r2)).1,
     (resolve_round t.level (roll_dice r1) (roll_dice r2)).2⟩, ht, by simp⟩
  · intro j hj
    simp [hj]
  · intro j
    by_cases hj : j = p.nft_id
    · subst hj
      simp [ht]
    · simp [hj]

/-- Witness for C10 at the concrete round played from `demoState 0 10`. -/
theorem C10_witness :
    afterDemoPlay.comp = (demoState 0 10).comp :=
  (C10_play_round_frame afterDemoPlay_step).1

end RaDiceX
